import Mathlib

/-
Verification of the Aequitas bot runtime shell (src/main.py) against its
natural-language specification.

The Python source is shallowly embedded: pure construction (embed builders)
becomes pure Lean functions; async handlers become total functions from the
event data plus an explicit environment (send outcomes, the clock value of
`datetime.utcnow()`, the text of `traceback.format_exc()`) to an
`Except PyExn _` result, where `.error` models an exception escaping the
handler and the output records the log lines emitted and the messages sent.
-/

namespace Aequitas

/-- Exceptions raised by the transport library at a send site.
`Forbidden` models `discord.Forbidden`; `OtherExn` models any other
exception (e.g. `discord.HTTPException`), carrying its string form. -/
inductive PyExn where
  | Forbidden
  | OtherExn (msg : String)
deriving DecidableEq, Repr

/-- Renders an exception the way Python string-interpolates it. -/
def exnMsg : PyExn → String
  | PyExn.Forbidden => "Forbidden"
  | PyExn.OtherExn m => m

/-- Field of an embed, as produced by `embed.add_field(name=..., value=..., inline=...)`
in main.py. -/
structure EmbedField where
  name : String
  value : String
  inl : Bool
deriving DecidableEq, Repr

/-- Author block set by `embed.set_author` in `create_embed` (main.py line 193). -/
structure Author where
  name : Option String
  icon_url : Option String
  url : Option String
deriving DecidableEq, Repr

/-- Footer block set by `embed.set_footer` in `create_embed` (main.py line 199). -/
structure Footer where
  text : Option String
  icon_url : Option String
deriving DecidableEq, Repr

/-- The `discord.Embed` payload as constructed in main.py: title, description,
color, timestamp, ordered fields, and the optional media/author/footer blocks.
`timestamp` is an abstract clock value (`datetime.utcnow()` is modelled by a
`now : Nat` parameter threaded into each constructor). -/
structure Embed where
  title : Option String
  description : Option String
  color : Nat
  timestamp : Option Nat
  fields : List EmbedField
  author : Option Author
  thumbnail : Option String
  image : Option String
  footer : Option Footer
deriving DecidableEq, Repr

/-- Embed with everything unset, color 0, matching `discord.Embed()` defaults
before keyword arguments are applied. -/
def Embed.base : Embed :=
  { title := none, description := none, color := 0, timestamp := none,
    fields := [], author := none, thumbnail := none, image := none, footer := none }

/-! ### Notification formatter (main.py lines 183-217) -/

/-- Default of the `color` keyword parameter in the Python signature of
`create_embed` (main.py line 183: `color=0x2f3136`). -/
def defaultColor : Nat := 0x2f3136

/-- Embedding of `create_embed` (main.py lines 183-201). All Python keyword
parameters are passed positionally; `now` models `datetime.utcnow()`, used
when `timestamp` is absent (`timestamp or datetime.utcnow()`). -/
def create_embed (title description : Option String) (color : Nat)
    (author : Option Author) (thumbnail : Option String) (image : Option String)
    (footer : Option Footer) (timestamp : Option Nat) (now : Nat) : Embed :=
  { title := title
    description := description
    color := color
    timestamp := some (match timestamp with | some t => t | none => now)
    fields := []
    author := author
    thumbnail := thumbnail
    image := image
    footer := footer }

/-- Embedding of `success_embed` (main.py lines 203-205). -/
def success_embed (title : String) (description : Option String) (now : Nat) : Embed :=
  create_embed (some ("✅ " ++ title)) description 0x00ff00 none none none none none now

/-- Embedding of `error_embed` (main.py lines 207-209). -/
def error_embed (title : String) (description : Option String) (now : Nat) : Embed :=
  create_embed (some ("❌ " ++ title)) description 0xff0000 none none none none none now

/-- Embedding of `warning_embed` (main.py lines 211-213). -/
def warning_embed (title : String) (description : Option String) (now : Nat) : Embed :=
  create_embed (some ("⚠️ " ++ title)) description 0xffaa00 none none none none none now

/-- Embedding of `info_embed` (main.py lines 215-217). -/
def info_embed (title : String) (description : Option String) (now : Nat) : Embed :=
  create_embed (some ("ℹ️ " ++ title)) description 0x0099ff none none none none none now

/-! ### Sending primitives

A send site (`ctx.send`, `interaction.response.send_message`, `channel.send`,
`interaction.followup.send`) either succeeds, delivering the payload, or
raises. The environment parameter `exn : Option PyExn` says which: `none`
means success, `some e` means the call raises `e`. -/

/-- One send call: succeeds with the delivered payloads, or raises `e`. -/
def pySend {α : Type} (exn : Option PyExn) (a : α) : Except PyExn (List α) :=
  match exn with
  | none => Except.ok [a]
  | some e => Except.error e

/-- A bare `try: ... except: pass` around a send: every exception is swallowed
and nothing is delivered (main.py lines 146-149 and 170-176). -/
def pyTryIgnore {α : Type} (r : Except PyExn (List α)) : List α :=
  match r with
  | Except.ok l => l
  | Except.error _ => []

/-- A `try: ... except discord.Forbidden: pass` around a send: only `Forbidden`
is swallowed; any other exception keeps propagating (main.py lines 113-116). -/
def tryExceptForbidden {α : Type} (r : Except PyExn (List α)) : Except PyExn (List α) :=
  match r with
  | Except.ok l => Except.ok l
  | Except.error PyExn.Forbidden => Except.ok []
  | Except.error e => Except.error e

/-! ### Legacy-path error classifier (main.py lines 120-149) -/

/-- The runtime-type tags discriminated by `on_command_error`'s `isinstance`
chain. `CommandOnCooldown` carries `error.retry_after` in hundredths of a
second (the exact value that `{error.retry_after:.2f}` prints);
`MissingRequiredArgument` carries `error.param.name`; `Unexpected` stands for
every exception class not matched by the chain and carries `str(error)`. -/
inductive LegacyError where
  | CommandNotFound
  | MissingPermissions
  | BotMissingPermissions
  | CommandOnCooldown (retry_after_hundredths : Nat)
  | MissingRequiredArgument (param_name : String)
  | BadArgument
  | Unexpected (detail : String)
deriving DecidableEq, Repr

/-- Two-character decimal rendering of `f < 100`, the fractional part printed
by a `:.2f` format. -/
def twoDigits (f : Nat) : String :=
  String.mk [Char.ofNat (48 + f / 10 % 10), Char.ofNat (48 + f % 10)]

/-- Rendering of `{r:.2f}` where `r` is given in hundredths: integral part,
a dot, then exactly two fractional digits. -/
def format2f (r : Nat) : String :=
  toString (r / 100) ++ "." ++ twoDigits (r % 100)

/-- The description selected by the `isinstance` chain of `on_command_error`
(main.py lines 131-142). `CommandNotFound` never reaches this point (the
handler returns first); it falls into the `else` text here. -/
def legacyDescription : LegacyError → String
  | LegacyError.MissingPermissions =>
      "You don't have permission to use this command."
  | LegacyError.BotMissingPermissions =>
      "I don't have the required permissions to execute this command."
  | LegacyError.CommandOnCooldown r =>
      "Command is on cooldown. Try again in " ++ format2f r ++ " seconds."
  | LegacyError.MissingRequiredArgument p =>
      "Missing required argument: `" ++ p ++ "`"
  | LegacyError.BadArgument =>
      "Invalid argument provided."
  | _ => "An unexpected error occurred."

/-- The embed built by `on_command_error` (main.py lines 125-129 plus the
description assignment): fixed title and color, `timestamp=datetime.utcnow()`. -/
def legacyEmbed (error : LegacyError) (now : Nat) : Embed :=
  { Embed.base with
    title := some "❌ Command Error"
    color := 0xff0000
    timestamp := some now
    description := some (legacyDescription error) }

/-- Log lines emitted by `on_command_error`: only the `else` branch logs, at
error severity, the command name with `str(error)` and then
`traceback.format_exc()` (main.py lines 143-144). `tb` is that traceback text. -/
def legacyLogs (ctx_command : String) (error : LegacyError) (tb : String) : List String :=
  match error with
  | LegacyError.Unexpected detail =>
      ["Unexpected error in command " ++ ctx_command ++ ": " ++ detail, tb]
  | _ => []

/-- Observable outcome of one run of the legacy handler: log lines emitted and
embeds successfully delivered via `ctx.send`. -/
structure LegacyOut where
  logs : List String
  sent : List Embed
deriving DecidableEq, Repr

/-- Embedding of `AdvancedBot.on_command_error` (main.py lines 120-149).
`sendExn` is the behaviour of the single `ctx.send` call; the bare
`except: pass` around it swallows any exception, so the handler always
returns `.ok`. -/
def on_command_error (ctx_command : String) (error : LegacyError)
    (sendExn : Option PyExn) (now : Nat) (tb : String) : Except PyExn LegacyOut :=
  match error with
  | LegacyError.CommandNotFound => Except.ok { logs := [], sent := [] }
  | _ =>
      let embed := legacyEmbed error now
      let logs := legacyLogs ctx_command error tb
      let sent := pyTryIgnore (pySend sendExn embed)
      Except.ok { logs := logs, sent := sent }

/-! ### Interaction-path error classifier (main.py lines 151-176) -/

/-- The runtime-type tags discriminated by `on_app_command_error`'s
`isinstance` chain; there is no `CommandNotFound` or argument-shape variant
on this path. `Unexpected` is the `else` branch, carrying `str(error)`. -/
inductive AppError where
  | MissingPermissions
  | BotMissingPermissions
  | CommandOnCooldown (retry_after_hundredths : Nat)
  | Unexpected (detail : String)
deriving DecidableEq, Repr

/-- Description selected by the `isinstance` chain of `on_app_command_error`
(main.py lines 159-166). -/
def appDescription : AppError → String
  | AppError.MissingPermissions =>
      "You don't have permission to use this command."
  | AppError.BotMissingPermissions =>
      "I don't have the required permissions to execute this command."
  | AppError.CommandOnCooldown r =>
      "Command is on cooldown. Try again in " ++ format2f r ++ " seconds."
  | AppError.Unexpected _ => "An unexpected error occurred."

/-- The embed built by `on_app_command_error` (main.py lines 153-157 plus the
description assignment). -/
def appEmbed (error : AppError) (now : Nat) : Embed :=
  { Embed.base with
    title := some "❌ Command Error"
    color := 0xff0000
    timestamp := some now
    description := some (appDescription error) }

/-- Log lines emitted by `on_app_command_error`: only the `else` branch logs
(main.py lines 167-168). -/
def appLogs (error : AppError) (tb : String) : List String :=
  match error with
  | AppError.Unexpected detail =>
      ["Unexpected error in slash command: " ++ detail, tb]
  | _ => []

/-- How the interaction-path notification was delivered:
`interaction.response.send_message` (primary) or `interaction.followup.send`. -/
inductive SendAction where
  | primaryResponse (e : Embed)
  | followup (e : Embed)
deriving DecidableEq, Repr

/-- Embed carried by a delivery action. -/
def actionEmbed : SendAction → Embed
  | SendAction.primaryResponse e => e
  | SendAction.followup e => e

/-- The mutable response state of a `discord.Interaction`, snapshotted at the
two moments the handler could observe it: when the handler is entered and when
the delivery branch actually executes. The source reads
`interaction.response.is_done()` only at the second moment (main.py line 171). -/
structure InteractionState where
  is_done_at_entry : Bool
  is_done_at_send : Bool
deriving DecidableEq, Repr

/-- Observable outcome of one run of the interaction handler: log lines and
delivery actions that completed. -/
structure AppOut where
  logs : List String
  sends : List SendAction
deriving DecidableEq, Repr

/-- Embedding of `AdvancedBot.on_app_command_error` (main.py lines 151-176).
The delivery branch inspects `st.is_done_at_send` — the value of
`interaction.response.is_done()` at the moment the send executes inside the
`try` block — and the bare `except: pass` swallows any send failure. -/
def on_app_command_error (st : InteractionState) (error : AppError)
    (sendExn : Option PyExn) (now : Nat) (tb : String) : Except PyExn AppOut :=
  let embed := appEmbed error now
  let logs := appLogs error tb
  let action :=
    if st.is_done_at_send then SendAction.followup embed
    else SendAction.primaryResponse embed
  let sends := pyTryIgnore (pySend sendExn action)
  Except.ok { logs := logs, sends := sends }

/-! ### Guild-join notifier (main.py lines 92-118) -/

/-- A text channel as the join handler sees it: its id and whether
`ch.permissions_for(guild.me).send_messages` holds. -/
structure Channel where
  channel_id : Nat
  can_send : Bool
deriving DecidableEq, Repr

/-- The guild data consumed by `on_guild_join`. `text_channels` is in
platform-defined order. -/
structure Guild where
  name : String
  guild_id : Nat
  member_count : Nat
  icon : Option String
  text_channels : List Channel
deriving DecidableEq, Repr

/-- The channel-selection loop of `on_guild_join` (main.py lines 106-110):
walk `text_channels` in order and keep the first with send capability. -/
def pickChannel : List Channel → Option Channel
  | [] => none
  | ch :: rest => if ch.can_send then some ch else pickChannel rest

/-- The welcome embed built by `on_guild_join` (main.py lines 94-103). -/
def guildJoinEmbed (g : Guild) (now : Nat) : Embed :=
  { Embed.base with
    title := some "🎉 Joined New Server!"
    description := some ("Thanks for adding me to **" ++ g.name ++ "**!")
    color := 0x00ff00
    timestamp := some now
    fields :=
      [ { name := "Server Name", value := g.name, inl := true },
        { name := "Member Count", value := toString g.member_count, inl := true },
        { name := "Server ID", value := toString g.guild_id, inl := true } ]
    thumbnail := g.icon }

/-- The log line of `on_guild_join` (main.py line 118). -/
def joinLog (g : Guild) : String :=
  "Joined guild: " ++ g.name ++ " (ID: " ++ toString g.guild_id ++ ")"

/-- Observable outcome of one run of the join handler: payloads delivered
(channel id with embed) and log lines. -/
structure GuildOut where
  sent : List (Nat × Embed)
  logs : List String
deriving DecidableEq, Repr

/-- Embedding of `AdvancedBot.on_guild_join` (main.py lines 92-118).
`sendOutcome` is the behaviour of `channel.send` if a channel was selected.
Only `discord.Forbidden` is caught; any other exception propagates out of the
handler before the log line at line 118 runs. -/
def on_guild_join (g : Guild) (sendOutcome : Option PyExn) (now : Nat) :
    Except PyExn GuildOut :=
  let embed := guildJoinEmbed g now
  let sendStep : Except PyExn (List (Nat × Embed)) :=
    match pickChannel g.text_channels with
    | some ch => tryExceptForbidden (pySend sendOutcome (ch.channel_id, embed))
    | none => Except.ok []
  match sendStep with
  | Except.error e => Except.error e
  | Except.ok sent => Except.ok { sent := sent, logs := [joinLog g] }

/-! ### Extension loader (main.py lines 51-67) -/

/-- The fixed module list of `load_extensions` (main.py lines 53-60). -/
def modules : List String :=
  ["cogs.moderation", "cogs.utility", "cogs.fun", "cogs.music",
   "cogs.economy", "cogs.admin"]

/-- Result of one load attempt: this is the spec's `ExtensionDescriptor`
realised for each module the loop attempts. -/
structure ExtensionDescriptor where
  name : String
  loaded : Bool
  lastError : Option String
deriving DecidableEq, Repr

/-- Outcome of `await self.load_extension(m)`: `none` means success, `some e`
means the call raised an exception whose string form is `e`. The loader calls
it exactly once per module. -/
def loadDescriptor (loadResult : String → Option String) (m : String) :
    ExtensionDescriptor :=
  match loadResult m with
  | none => { name := m, loaded := true, lastError := none }
  | some e => { name := m, loaded := false, lastError := some e }

/-- The one log line the loop emits for module `m` (main.py lines 65 and 67). -/
def loadLog (loadResult : String → Option String) (m : String) : String :=
  match loadResult m with
  | none => "Loaded " ++ m
  | some e => "Failed to load " ++ m ++ ": " ++ e

/-- The loop body of `load_extensions` over an arbitrary ordered module list
(main.py lines 62-67): each iteration wraps the load in `try/except`, logging
success or failure, and always proceeds to the next module. Returns the
descriptor sequence and the log lines, both in input order. -/
def loadAll (loadResult : String → Option String) :
    List String → List ExtensionDescriptor × List String
  | [] => ([], [])
  | m :: rest =>
      let r := loadAll loadResult rest
      (loadDescriptor loadResult m :: r.1, loadLog loadResult m :: r.2)

/-- Embedding of `AdvancedBot.load_extensions` (main.py lines 51-67): the loop
applied to the fixed module list. -/
def load_extensions (loadResult : String → Option String) :
    List ExtensionDescriptor × List String :=
  loadAll loadResult modules

/-! ### Lifecycle: setup_hook, on_ready, main (main.py lines 35-49, 69-90, 220-238) -/

/-- Embedding of `AdvancedBot.setup_hook` (main.py lines 35-49). `syncOutcome`
is the behaviour of `await self.tree.sync()`: `.ok n` returns `n` synced
commands, `.error e` raises. The `try/except` around the sync turns either
outcome into a log line, so the hook itself never raises: it returns `.ok`
with all log lines emitted, in order. -/
def setup_hook (loadResult : String → Option String)
    (syncOutcome : Except PyExn Nat) : Except PyExn (List String) :=
  let extLogs := (load_extensions loadResult).2
  let syncLogs :=
    match syncOutcome with
    | Except.ok n => ["Synced " ++ toString n ++ " command(s)"]
    | Except.error e => ["Failed to sync commands: " ++ exnMsg e]
  Except.ok (["Starting bot setup..."] ++ extLogs ++ syncLogs
    ++ ["Bot setup completed!"])

/-- The environment `on_ready` reads from the connected client. `latency_ms`
is `round(self.latency * 1000)`, already rounded to the nearest integer. -/
structure ReadyEnv where
  user_name : String
  avatar : Option String
  guild_count : Nat
  user_count : Nat
  latency_ms : Nat
deriving DecidableEq, Repr

/-- The presence descriptor set by `change_presence` (main.py lines 85-90). -/
structure Presence where
  activity_type : String
  activity_name : String
deriving DecidableEq, Repr

/-- Output of `on_ready`: the status embed it constructs, the log line, and
the presence it sets. -/
structure ReadyOut where
  embed : Embed
  logs : List String
  presence : Presence
deriving DecidableEq, Repr

/-- Embedding of `AdvancedBot.on_ready` (main.py lines 69-90): build the
status embed (guilds, users, latency), log readiness, set the watching
presence. -/
def on_ready (env : ReadyEnv) (now : Nat) : ReadyOut :=
  { embed :=
      { Embed.base with
        title := some "🤖 Bot Online"
        description := some ("**" ++ env.user_name ++ "** is now online and ready!")
        color := 0x00ff00
        timestamp := some now
        fields :=
          [ { name := "Servers", value := toString env.guild_count, inl := true },
            { name := "Users", value := toString env.user_count, inl := true },
            { name := "Latency", value := toString env.latency_ms ++ "ms", inl := true } ]
        thumbnail := env.avatar }
    logs := ["Bot is ready! Logged in as " ++ env.user_name]
    presence :=
      { activity_type := "watching"
        activity_name := toString env.guild_count ++ " servers" } }

/-- One startup attempt as the transport drives it: `setup_hook` runs to
completion first, then the ready event fires. `.ok` means the lifecycle
reached `Ready`; the pair carries the setup logs and the ready output. -/
def runToReady (loadResult : String → Option String)
    (syncOutcome : Except PyExn Nat) (env : ReadyEnv) (now : Nat) :
    Except PyExn (List String × ReadyOut) :=
  match setup_hook loadResult syncOutcome with
  | Except.error e => Except.error e
  | Except.ok setupLogs => Except.ok (setupLogs, on_ready env now)

/-- How `await bot.start(token)` behaves for the run: completes, is hit by
`KeyboardInterrupt`, or raises some other exception. -/
inductive RunOutcome where
  | Clean
  | Interrupted
  | RaisedExn (msg : String)
deriving DecidableEq, Repr

/-- Observable outcome of `main()` (main.py lines 220-235): what was printed
to stdout, what was logged, how many connection attempts (`bot.start` calls)
were made, and whether `bot.close()` ran. -/
structure MainResult where
  printed : List String
  logs : List String
  connectAttempts : Nat
  closed : Bool
deriving DecidableEq, Repr

/-- Embedding of `main` (main.py lines 220-235). With no token it prints the
diagnostic and returns — a plain `return`, not an exception and not a
`sys.exit` — so the coroutine completes normally in every branch. -/
def mainFn (token : Option String) (run : RunOutcome) : Except PyExn MainResult :=
  match token with
  | none =>
      Except.ok
        { printed := ["Error: DISCORD_TOKEN environment variable not set!"]
          logs := [], connectAttempts := 0, closed := false }
  | some _ =>
      match run with
      | RunOutcome.Clean =>
          Except.ok { printed := [], logs := [], connectAttempts := 1, closed := false }
      | RunOutcome.Interrupted =>
          Except.ok { printed := [], logs := [], connectAttempts := 1, closed := true }
      | RunOutcome.RaisedExn m =>
          Except.ok
            { printed := [], logs := ["Fatal error: " ++ m]
              connectAttempts := 1, closed := true }

/-- Exit status of the process running `asyncio.run(main())` (main.py lines
237-238): zero when the coroutine returns, nonzero only if an exception
escapes it. -/
def processExit : Except PyExn MainResult → Nat
  | Except.ok _ => 0
  | Except.error _ => 1

/-! ### Accessors and fixtures used by the statements below -/

/-- True when a handler run completed without an exception escaping it. -/
def returnsNormally {α : Type} : Except PyExn α → Bool
  | Except.ok _ => true
  | Except.error _ => false

/-- Embeds the legacy handler actually delivered (none if it raised). -/
def legacySent (r : Except PyExn LegacyOut) : List Embed :=
  match r with
  | Except.ok o => o.sent
  | Except.error _ => []

/-- Delivery actions the interaction handler actually completed. -/
def appSends (r : Except PyExn AppOut) : List SendAction :=
  match r with
  | Except.ok o => o.sends
  | Except.error _ => []

/-- Log lines the join handler emitted; a raised handler emitted none, since
the log statement is the last line of its body. -/
def guildLogs (r : Except PyExn GuildOut) : List String :=
  match r with
  | Except.ok o => o.logs
  | Except.error _ => []

/-- Template of the spec's mapping table for the MissingArgument kind, written
from the spec's own words: the description ends with a period after the
closing backtick. Kept separate from `legacyDescription` (which embeds the
source) so the two can be compared. -/
def specMissingArgumentTemplate (p : String) : String :=
  "Missing required argument: `" ++ p ++ "`."

/-- Load oracle for the spec's three-module scenario: module B raises, A and
C succeed. -/
def loadABC : String → Option String :=
  fun m => if m = "B" then some "boom" else none

/-- Concrete guild with channels [no-perm, perm, perm], the spec's selection
scenario. -/
def guildEx : Guild :=
  { name := "Testers", guild_id := 7, member_count := 3, icon := none,
    text_channels :=
      [ { channel_id := 1, can_send := false },
        { channel_id := 2, can_send := true },
        { channel_id := 3, can_send := true } ] }

/-- First-match characterisation of the selection loop. -/
theorem pickChannel_eq_find (l : List Channel) :
    pickChannel l = List.find? Channel.can_send l := by
  induction l with
  | nil => rfl
  | cons ch rest ih =>
      by_cases h : ch.can_send
      · simp [pickChannel, h, List.find?_cons_of_pos]
      · simp only [Bool.not_eq_true] at h
        simp [pickChannel, h, List.find?_cons_of_neg, ih]

/-- C9: the notification formatter is pure construction: each template
prefixes the title with its fixed glyph and assigns the matching fixed color
(success=0x00ff00, error=0xff0000, warning=0xffaa00, info=0x0099ff), the
generic constructor's default color is 0x2f3136, and with an explicit
timestamp the output is independent of the clock, i.e. deterministic apart
from the default timestamp. -/
theorem formatter_pure_templates (t : String) (d ti de : Option String)
    (col now now2 ts : Nat) (a : Option Author) (th im : Option String)
    (f : Option Footer) :
    (success_embed t d now).title = some ("✅ " ++ t)
    ∧ (success_embed t d now).color = 0x00ff00
    ∧ (success_embed t d now).description = d
    ∧ (error_embed t d now).title = some ("❌ " ++ t)
    ∧ (error_embed t d now).color = 0xff0000
    ∧ (error_embed t d now).description = d
    ∧ (warning_embed t d now).title = some ("⚠️ " ++ t)
    ∧ (warning_embed t d now).color = 0xffaa00
    ∧ (warning_embed t d now).description = d
    ∧ (info_embed t d now).title = some ("ℹ️ " ++ t)
    ∧ (info_embed t d now).color = 0x0099ff
    ∧ (info_embed t d now).description = d
    ∧ (create_embed ti de defaultColor a th im f none now).color = 0x2f3136
    ∧ create_embed ti de col a th im f (some ts) now
        = create_embed ti de col a th im f (some ts) now2 :=
  ⟨rfl, rfl, rfl, rfl, rfl, rfl, rfl, rfl, rfl, rfl, rfl, rfl, rfl, rfl⟩

/-- C4: a legacy-path `CommandNotFound` event makes the handler return at
once: zero log lines and zero notifications, whatever the send environment. -/
theorem legacy_notfound_silent (c : String) (sendExn : Option PyExn)
    (now : Nat) (tb : String) :
    on_command_error c LegacyError.CommandNotFound sendExn now tb
      = Except.ok { logs := [], sent := [] } :=
  rfl

/-- C3: the interaction-path delivery branch is decided by the response state
at send time: the handler's output depends only on `is_done_at_send` (two
states agreeing there give identical outputs, whatever `is_done_at_entry`
says), and when the send succeeds the notification goes out as the primary
response exactly when no response existed yet, as a follow-up otherwise. -/
theorem interaction_delivery_at_send_time (st st2 : InteractionState)
    (error : AppError) (sendExn : Option PyExn) (now : Nat) (tb : String)
    (hsame : st.is_done_at_send = st2.is_done_at_send) :
    on_app_command_error st error sendExn now tb
      = on_app_command_error st2 error sendExn now tb
    ∧ appSends (on_app_command_error st error none now tb)
      = [if st.is_done_at_send then SendAction.followup (appEmbed error now)
         else SendAction.primaryResponse (appEmbed error now)] := by
  constructor
  · unfold on_app_command_error
    rw [hsame]
  · cases h : st.is_done_at_send <;>
      simp [on_app_command_error, appSends, pySend, pyTryIgnore, h]

/-- Witness for C3: with a response already produced at entry but not at send
time (entry snapshot `true`, send snapshot `false`), the output matches the
all-`false` state and the notification goes out as the primary response. -/
theorem interaction_delivery_at_send_time_witness :
    on_app_command_error { is_done_at_entry := true, is_done_at_send := false }
        AppError.MissingPermissions none 0 ""
      = on_app_command_error { is_done_at_entry := false, is_done_at_send := false }
          AppError.MissingPermissions none 0 ""
    ∧ appSends (on_app_command_error
        { is_done_at_entry := true, is_done_at_send := false }
        AppError.MissingPermissions none 0 "")
      = [SendAction.primaryResponse (appEmbed AppError.MissingPermissions 0)] := by
  have h := interaction_delivery_at_send_time
    { is_done_at_entry := true, is_done_at_send := false }
    { is_done_at_entry := false, is_done_at_send := false }
    AppError.MissingPermissions none 0 "" rfl
  exact ⟨h.1, h.2⟩

/-- C8: neither error handler ever raises: both return `.ok` for every error
kind and every send behaviour, and when the send raises the exception is
swallowed with nothing delivered — the logs are untouched and the sent list
is empty. -/
theorem handlers_never_raise (c tb : String) (e1 : LegacyError)
    (st : InteractionState) (e2 : AppError) (s1 s2 : Option PyExn)
    (exn : PyExn) (now : Nat) :
    returnsNormally (on_command_error c e1 s1 now tb) = true
    ∧ returnsNormally (on_app_command_error st e2 s2 now tb) = true
    ∧ on_command_error c e1 (some exn) now tb
        = Except.ok { logs := legacyLogs c e1 tb, sent := [] }
    ∧ on_app_command_error st e2 (some exn) now tb
        = Except.ok { logs := appLogs e2 tb, sends := [] } := by
  refine ⟨?_, rfl, ?_, rfl⟩
  · cases e1 <;> rfl
  · cases e1 <;> rfl

/-- C10: every notification either classifier constructs carries the fixed
title "❌ Command Error", the color 0xff0000 and a non-null timestamp set at
construction; the kind only ever reaches the description (erasing the
description makes the embeds of any two kinds identical) and the logs, and
the handlers deliver exactly these embeds. -/
theorem error_embeds_fixed_shape (c tb : String) (e1 e1b : LegacyError)
    (e2 e2b : AppError) (st : InteractionState) (now : Nat) :
    (legacyEmbed e1 now).title = some "❌ Command Error"
    ∧ (legacyEmbed e1 now).color = 0xff0000
    ∧ (legacyEmbed e1 now).timestamp = some now
    ∧ (appEmbed e2 now).title = some "❌ Command Error"
    ∧ (appEmbed e2 now).color = 0xff0000
    ∧ (appEmbed e2 now).timestamp = some now
    ∧ { legacyEmbed e1 now with description := none }
        = { legacyEmbed e1b now with description := none }
    ∧ { appEmbed e2 now with description := none }
        = { appEmbed e2b now with description := none }
    ∧ (e1 ≠ LegacyError.CommandNotFound →
        on_command_error c e1 none now tb
          = Except.ok { logs := legacyLogs c e1 tb, sent := [legacyEmbed e1 now] })
    ∧ (appSends (on_app_command_error st e2 none now tb)).map actionEmbed
        = [appEmbed e2 now] := by
  refine ⟨rfl, rfl, rfl, rfl, rfl, rfl, rfl, rfl, ?_, ?_⟩
  · intro h
    cases e1 with
    | CommandNotFound => exact absurd rfl h
    | _ => rfl
  · cases h : st.is_done_at_send <;>
      simp [on_app_command_error, appSends, actionEmbed, pySend, pyTryIgnore, h]

/-- Witness for C10: at the concrete kinds `BadArgument` (legacy) and
`CommandOnCooldown 150` (interaction) the fixed shape and the delivered
embeds are as stated. -/
theorem error_embeds_fixed_shape_witness :
    (legacyEmbed LegacyError.BadArgument 5).title = some "❌ Command Error"
    ∧ (legacyEmbed LegacyError.BadArgument 5).timestamp = some 5
    ∧ on_command_error "ping" LegacyError.BadArgument none 5 ""
        = Except.ok { logs := [], sent := [legacyEmbed LegacyError.BadArgument 5] }
    ∧ (appSends (on_app_command_error
          { is_done_at_entry := false, is_done_at_send := false }
          (AppError.CommandOnCooldown 150) none 5 "")).map actionEmbed
        = [appEmbed (AppError.CommandOnCooldown 150) 5] := by
  have h := error_embeds_fixed_shape "ping" "" LegacyError.BadArgument
    LegacyError.BadArgument (AppError.CommandOnCooldown 150)
    (AppError.CommandOnCooldown 150)
    { is_done_at_entry := false, is_done_at_send := false } 5
  exact ⟨h.1, h.2.2.1, h.2.2.2.2.2.2.2.2.1 (by decide), h.2.2.2.2.2.2.2.2.2⟩

/-- C1 counterexample: for a legacy `MissingRequiredArgument` event with
parameter name "x" the handler delivers an embed whose description carries no
trailing period after the closing backtick, so it differs byte-for-byte from
the spec's fixed template, which ends in a period. -/
theorem legacy_missing_argument_template_mismatch :
    legacySent (on_command_error "cmd" (LegacyError.MissingRequiredArgument "x") none 0 "")
      = [legacyEmbed (LegacyError.MissingRequiredArgument "x") 0]
    ∧ (legacyEmbed (LegacyError.MissingRequiredArgument "x") 0).description
        = some "Missing required argument: `x`"
    ∧ (legacyEmbed (LegacyError.MissingRequiredArgument "x") 0).description
        ≠ some (specMissingArgumentTemplate "x") := by
  refine ⟨rfl, rfl, ?_⟩
  decide

/-- C1 (amended): for every legacy kind except `NotFound` the handler
delivers an embed whose description equals the code's fixed template for the
kind, byte-for-byte: the spec's templates for all kinds, except that the
`MissingArgument` description carries no trailing period; the cooldown value
is rendered with exactly two fractional digits. -/
theorem legacy_descriptions_match_templates (c tb p d : String) (r now : Nat) :
    legacySent (on_command_error c LegacyError.MissingPermissions none now tb)
      = [legacyEmbed LegacyError.MissingPermissions now]
    ∧ legacySent (on_command_error c LegacyError.BotMissingPermissions none now tb)
      = [legacyEmbed LegacyError.BotMissingPermissions now]
    ∧ legacySent (on_command_error c (LegacyError.CommandOnCooldown r) none now tb)
      = [legacyEmbed (LegacyError.CommandOnCooldown r) now]
    ∧ legacySent (on_command_error c (LegacyError.MissingRequiredArgument p) none now tb)
      = [legacyEmbed (LegacyError.MissingRequiredArgument p) now]
    ∧ legacySent (on_command_error c LegacyError.BadArgument none now tb)
      = [legacyEmbed LegacyError.BadArgument now]
    ∧ legacySent (on_command_error c (LegacyError.Unexpected d) none now tb)
      = [legacyEmbed (LegacyError.Unexpected d) now]
    ∧ (legacyEmbed LegacyError.MissingPermissions now).description
      = some "You don't have permission to use this command."
    ∧ (legacyEmbed LegacyError.BotMissingPermissions now).description
      = some "I don't have the required permissions to execute this command."
    ∧ (legacyEmbed (LegacyError.CommandOnCooldown r) now).description
      = some ("Command is on cooldown. Try again in " ++ format2f r ++ " seconds.")
    ∧ format2f r = toString (r / 100) ++ "." ++ twoDigits (r % 100)
    ∧ (twoDigits (r % 100)).length = 2
    ∧ (legacyEmbed (LegacyError.MissingRequiredArgument p) now).description
      = some ("Missing required argument: `" ++ p ++ "`")
    ∧ (legacyEmbed LegacyError.BadArgument now).description
      = some "Invalid argument provided."
    ∧ (legacyEmbed (LegacyError.Unexpected d) now).description
      = some "An unexpected error occurred." :=
  ⟨rfl, rfl, rfl, rfl, rfl, rfl, rfl, rfl, rfl, rfl, rfl, rfl, rfl, rfl⟩

/-- C2 counterexample: with the token absent, `main` prints the diagnostic
and makes zero connection attempts, but the coroutine returns normally and
the process exit status is 0 — not the non-zero outcome the claim asserts. -/
theorem missing_token_exit_code_zero :
    mainFn none RunOutcome.Clean
      = Except.ok
          { printed := ["Error: DISCORD_TOKEN environment variable not set!"]
            logs := [], connectAttempts := 0, closed := false }
    ∧ processExit (mainFn none RunOutcome.Clean) = 0
    ∧ ¬ processExit (mainFn none RunOutcome.Clean) ≠ 0 :=
  ⟨rfl, rfl, fun h => h rfl⟩

/-- C2 (amended): with the token absent, startup takes the fatal path —
prints the user-visible diagnostic and makes zero connection attempts — and
the process ends normally with exit status 0 (a plain `return`, not a
non-zero exit). -/
theorem missing_token_fatal_path (run : RunOutcome) :
    mainFn none run
      = Except.ok
          { printed := ["Error: DISCORD_TOKEN environment variable not set!"]
            logs := [], connectAttempts := 0, closed := false }
    ∧ processExit (mainFn none run) = 0 :=
  ⟨rfl, rfl⟩

/-- C5: for every ordered module list the loader produces exactly one
descriptor and one log line per module, in input order; each module's outcome
depends only on its own load result (so a failure at one position never
prevents the next attempt and nothing is retried); a failing module is
reported not-loaded with its error detail in the log line; and
`load_extensions` is this loop on the fixed module list. -/
theorem loader_isolates_failures (f : String → Option String)
    (mods rest : List String) (m e : String) :
    loadAll f mods = (mods.map (loadDescriptor f), mods.map (loadLog f))
    ∧ (loadAll f mods).1.length = mods.length
    ∧ (loadAll f mods).2.length = mods.length
    ∧ (loadAll f mods).1.map ExtensionDescriptor.name = mods
    ∧ loadAll f (m :: rest)
        = (loadDescriptor f m :: (loadAll f rest).1, loadLog f m :: (loadAll f rest).2)
    ∧ (f m = some e →
        loadDescriptor f m = { name := m, loaded := false, lastError := some e }
        ∧ loadLog f m = "Failed to load " ++ m ++ ": " ++ e)
    ∧ load_extensions f = (modules.map (loadDescriptor f), modules.map (loadLog f)) := by
  have key : ∀ l : List String,
      loadAll f l = (l.map (loadDescriptor f), l.map (loadLog f)) := by
    intro l
    induction l with
    | nil => rfl
    | cons a t ih => simp [loadAll, ih]
  refine ⟨key mods, ?_, ?_, ?_, rfl, ?_, key modules⟩
  · rw [key mods]; simp
  · rw [key mods]; simp
  · rw [key mods]
    simp only [List.map_map]
    have hname : ExtensionDescriptor.name ∘ loadDescriptor f = id := by
      funext x
      cases h : f x <;> simp [loadDescriptor, h]
    rw [hname, List.map_id]
  · intro h
    constructor
    · simp [loadDescriptor, h]
    · simp [loadLog, h]

/-- Witness for C5: the spec's three-module scenario A, B, C where loading B
raises "boom": three descriptors in order, B reported not-loaded with the
error in its log line, and C still attempted. -/
theorem loader_isolates_failures_witness :
    (loadAll loadABC ["A", "B", "C"]).1.length = 3
    ∧ (loadAll loadABC ["A", "B", "C"]).1.map ExtensionDescriptor.name = ["A", "B", "C"]
    ∧ loadDescriptor loadABC "B" = { name := "B", loaded := false, lastError := some "boom" }
    ∧ loadLog loadABC "B" = "Failed to load B: boom" := by
  have h := loader_isolates_failures loadABC ["A", "B", "C"] ["C"] "B" "boom"
  have hb : loadABC "B" = some "boom" := rfl
  refine ⟨h.2.1, h.2.2.2.1, (h.2.2.2.2.2.1 hb).1, ?_⟩
  have := (h.2.2.2.2.2.1 hb).2
  rw [this]
  decide

/-- C6 counterexample: in a guild whose second channel is the first sendable
one, a delivery failure other than `Forbidden` (here an HTTP error) is not
caught: it escapes the handler, and since the log statement is the last line
of the handler body, the join event is never logged. -/
theorem join_delivery_failure_escapes :
    on_guild_join guildEx (some (PyExn.OtherExn "HTTPException")) 0
      = Except.error (PyExn.OtherExn "HTTPException")
    ∧ guildLogs (on_guild_join guildEx (some (PyExn.OtherExn "HTTPException")) 0) = [] :=
  ⟨rfl, rfl⟩

/-- C6 (amended): the notifier selects the first text channel in platform
order with send capability; with no qualifying channel it sends nothing and
still logs the join; a `Forbidden` delivery failure after selection is caught
and discarded with the join still logged; but any other delivery failure
escapes the handler uncaught, and the join goes unlogged there. -/
theorem join_first_channel_selection (g : Guild) (now : Nat) (ch : Channel)
    (m : String) :
    pickChannel g.text_channels = List.find? Channel.can_send g.text_channels
    ∧ (pickChannel g.text_channels = none →
        ∀ outcome, on_guild_join g outcome now
          = Except.ok { sent := [], logs := [joinLog g] })
    ∧ (pickChannel g.text_channels = some ch →
        on_guild_join g none now
          = Except.ok { sent := [(ch.channel_id, guildJoinEmbed g now)], logs := [joinLog g] }
        ∧ on_guild_join g (some PyExn.Forbidden) now
          = Except.ok { sent := [], logs := [joinLog g] }
        ∧ on_guild_join g (some (PyExn.OtherExn m)) now
          = Except.error (PyExn.OtherExn m)) := by
  refine ⟨pickChannel_eq_find g.text_channels, ?_, ?_⟩
  · intro h outcome
    simp [on_guild_join, h]
  · intro h
    refine ⟨?_, ?_, ?_⟩ <;>
      simp [on_guild_join, h, pySend, tryExceptForbidden]

/-- Witness for C6 (amended): in the spec's scenario (channels no-perm,
perm, perm) the second channel is selected; successful delivery and a
`Forbidden` failure both end with the join logged. -/
theorem join_first_channel_selection_witness :
    pickChannel guildEx.text_channels = some { channel_id := 2, can_send := true }
    ∧ on_guild_join guildEx none 0
      = Except.ok { sent := [(2, guildJoinEmbed guildEx 0)], logs := [joinLog guildEx] }
    ∧ on_guild_join guildEx (some PyExn.Forbidden) 0
      = Except.ok { sent := [], logs := [joinLog guildEx] } := by
  have h := join_first_channel_selection guildEx 0 { channel_id := 2, can_send := true } "x"
  have hp : pickChannel guildEx.text_channels = some { channel_id := 2, can_send := true } := rfl
  exact ⟨hp, (h.2.2 hp).1, (h.2.2 hp).2.1⟩

/-- C7: a failing command sync is non-fatal: `setup_hook` catches it, logs
"Failed to sync commands" with the error, and completes; the startup run
still reaches the ready stage, where the status embed (server count, user
count, latency in ms) is produced, readiness is logged, and the watching
presence is set. -/
theorem sync_failure_nonfatal (loadResult : String → Option String)
    (e : String) (env : ReadyEnv) (now : Nat) :
    setup_hook loadResult (Except.error (PyExn.OtherExn e))
      = Except.ok (["Starting bot setup..."] ++ (load_extensions loadResult).2
          ++ ["Failed to sync commands: " ++ e] ++ ["Bot setup completed!"])
    ∧ runToReady loadResult (Except.error (PyExn.OtherExn e)) env now
      = Except.ok ((["Starting bot setup..."] ++ (load_extensions loadResult).2
          ++ ["Failed to sync commands: " ++ e] ++ ["Bot setup completed!"]),
          on_ready env now)
    ∧ (on_ready env now).logs = ["Bot is ready! Logged in as " ++ env.user_name]
    ∧ (on_ready env now).embed.fields
      = [ { name := "Servers", value := toString env.guild_count, inl := true },
          { name := "Users", value := toString env.user_count, inl := true },
          { name := "Latency", value := toString env.latency_ms ++ "ms", inl := true } ]
    ∧ (on_ready env now).embed.timestamp = some now
    ∧ (on_ready env now).presence
      = { activity_type := "watching",
          activity_name := toString env.guild_count ++ " servers" } :=
  ⟨rfl, rfl, rfl, rfl, rfl, rfl⟩

end Aequitas
